import Mathlib

/-!
Verification of the C FFI boundary contract of supabase-lib-rs.

The provided sources are the public header `src/include/supabase.h` (the
error-code enumeration and the nine exported function declarations) and the
example program `src/examples/c_usage/main.c`.  The implementation behind the
header (client handle lifecycle, façade dispatch, error-state store) is not
part of the provided sources; where a claim depends on it, the corresponding
definition below is modelled from the specification and its doc comment says
so explicitly.
-/

namespace SupabaseSpec

/-- Error codes, embedded from `src/include/supabase.h` lines 16-27. -/
inductive SupabaseError where
  | SUPABASE_SUCCESS
  | SUPABASE_INVALID_INPUT
  | SUPABASE_NETWORK_ERROR
  | SUPABASE_AUTH_ERROR
  | SUPABASE_DATABASE_ERROR
  | SUPABASE_STORAGE_ERROR
  | SUPABASE_FUNCTIONS_ERROR
  | SUPABASE_REALTIME_ERROR
  | SUPABASE_RUNTIME_ERROR
  | SUPABASE_UNKNOWN_ERROR
deriving DecidableEq, Repr

/-- Integer value of each enumerator, as written in the header. -/
def SupabaseError.toCode : SupabaseError → Nat
  | .SUPABASE_SUCCESS => 0
  | .SUPABASE_INVALID_INPUT => 1
  | .SUPABASE_NETWORK_ERROR => 2
  | .SUPABASE_AUTH_ERROR => 3
  | .SUPABASE_DATABASE_ERROR => 4
  | .SUPABASE_STORAGE_ERROR => 5
  | .SUPABASE_FUNCTIONS_ERROR => 6
  | .SUPABASE_REALTIME_ERROR => 7
  | .SUPABASE_RUNTIME_ERROR => 8
  | .SUPABASE_UNKNOWN_ERROR => 99

/-- The ten enumerators in header order. -/
def errList : List SupabaseError :=
  [.SUPABASE_SUCCESS, .SUPABASE_INVALID_INPUT, .SUPABASE_NETWORK_ERROR,
   .SUPABASE_AUTH_ERROR, .SUPABASE_DATABASE_ERROR, .SUPABASE_STORAGE_ERROR,
   .SUPABASE_FUNCTIONS_ERROR, .SUPABASE_REALTIME_ERROR, .SUPABASE_RUNTIME_ERROR,
   .SUPABASE_UNKNOWN_ERROR]

/-- One C function declaration of the public header: return type, name, and
the parameter list as (type, name) pairs. -/
structure CDecl where
  ret : String
  name : String
  params : List (String × String)
deriving DecidableEq, Repr

/-- The nine function declarations of `src/include/supabase.h` lines 29-84,
embedded verbatim in header order. -/
def headerDecls : List CDecl :=
  [⟨("SupabaseClient*"), ("supabase_client_new"),
     [(("const char*"), ("url")), (("const char*"), ("key"))]⟩,
   ⟨("void"), ("supabase_client_free"), [(("SupabaseClient*"), ("client"))]⟩,
   ⟨("SupabaseError"), ("supabase_auth_sign_in"),
     [(("SupabaseClient*"), ("client")), (("const char*"), ("email")),
      (("const char*"), ("password")), (("char*"), ("result")),
      (("size_t"), ("result_len"))]⟩,
   ⟨("SupabaseError"), ("supabase_auth_sign_up"),
     [(("SupabaseClient*"), ("client")), (("const char*"), ("email")),
      (("const char*"), ("password")), (("char*"), ("result")),
      (("size_t"), ("result_len"))]⟩,
   ⟨("SupabaseError"), ("supabase_database_select"),
     [(("SupabaseClient*"), ("client")), (("const char*"), ("table")),
      (("const char*"), ("columns")), (("char*"), ("result")),
      (("size_t"), ("result_len"))]⟩,
   ⟨("SupabaseError"), ("supabase_database_insert"),
     [(("SupabaseClient*"), ("client")), (("const char*"), ("table")),
      (("const char*"), ("json_data")), (("char*"), ("result")),
      (("size_t"), ("result_len"))]⟩,
   ⟨("SupabaseError"), ("supabase_storage_list_buckets"),
     [(("SupabaseClient*"), ("client")), (("char*"), ("result")),
      (("size_t"), ("result_len"))]⟩,
   ⟨("SupabaseError"), ("supabase_functions_invoke"),
     [(("SupabaseClient*"), ("client")), (("const char*"), ("function_name")),
      (("const char*"), ("json_payload")), (("char*"), ("result")),
      (("size_t"), ("result_len"))]⟩,
   ⟨("SupabaseError"), ("supabase_get_last_error"),
     [(("char*"), ("buffer")), (("size_t"), ("buffer_len"))]⟩]

/-- The names the public header declares. -/
def headerFunctionNames : List String := headerDecls.map (fun d => d.name)

/-- Claim C3: the error enumeration of the header has exactly the ten
enumerators with stable integer values 0,1,2,3,4,5,6,7,8,99, pairwise
distinct, and every value of the type is one of them (so the header binds
exactly these values to these meanings). -/
theorem C3_error_enum_values :
    errList.map SupabaseError.toCode = [0, 1, 2, 3, 4, 5, 6, 7, 8, 99] ∧
    (∀ e : SupabaseError, e ∈ errList) ∧
    errList.Nodup := by
  refine ⟨rfl, ?_, by decide⟩
  intro e
  cases e <;> simp [errList]

/-- Occurrence test: does `pat` occur as a contiguous run inside the list. -/
def hasSub (pat : List Char) : List Char → Bool
  | [] => decide (pat = [])
  | c :: rest => pat.isPrefixOf (c :: rest) || hasSub pat rest

/-- Claim C8, counterexample: the public header declares no function named
`version` (nor `supabase_version`, nor any name mentioning a version), so the
claimed `version()` entry point is absent from the header contract. -/
theorem C8_counterexample :
    (∀ d ∈ headerDecls, d.name ≠ ("version") ∧ d.name ≠ ("supabase_version")) ∧
    headerFunctionNames.all (fun n => !hasSub (String.toList ("version")) n.toList) := by
  constructor
  · intro d hd
    fin_cases hd <;> exact ⟨by decide, by decide⟩
  · decide

/-- Claim C8, amended: the public header contract consists of exactly the nine
`supabase_`-prefixed functions (client lifecycle, six façade operations, and
the last-error accessor); it declares no `version()` function, so no stable
version string accessor is part of the header contract. -/
theorem C8_amended :
    headerFunctionNames =
      [("supabase_client_new"), ("supabase_client_free"), ("supabase_auth_sign_in"),
       ("supabase_auth_sign_up"), ("supabase_database_select"),
       ("supabase_database_insert"), ("supabase_storage_list_buckets"),
       ("supabase_functions_invoke"), ("supabase_get_last_error")] ∧
    ("version") ∉ headerFunctionNames := by
  constructor
  · rfl
  · decide

/-- Modelled from the spec: the Error State Store (§3 ErrorState, §4.3); the
implementation behind `supabase_get_last_error` is not in the provided
sources. Fields: last error code, last error message, and a monotonically
increasing sequence number. -/
structure ErrorState where
  code : SupabaseError
  message : String
  seq : Nat
deriving DecidableEq, Repr

/-- Modelled from the spec: the error state at creation, before any error has
been recorded. -/
def errInit : ErrorState := ⟨.SUPABASE_SUCCESS, "", 0⟩

/-- Modelled from the spec (§4.3 recordError): overwrites the last-error
fields; the monotonic sequence increases. -/
def recordError (c : SupabaseError) (m : String) (e : ErrorState) : ErrorState :=
  ⟨c, m, e.seq + 1⟩

/-- The C string terminator written after the copied message text. -/
def nullChar : Char := Char.ofNat 0

/-- Modelled from the spec (§4.3, §3 Result Buffer): copy a message into a
caller buffer of capacity `cap`, truncating safely. With zero capacity the
buffer is untouched; otherwise at most `cap - 1` characters of the message
plus the terminator are written, and the buffer past the written region is
preserved. -/
def copyTrunc (msg : List Char) (cap : Nat) (buf : List Char) : List Char :=
  if cap = 0 then buf
  else
    let w := msg.take (cap - 1) ++ [nullChar]
    w ++ buf.drop w.length

/-- Modelled from the spec (§4.3 getLastError, header line 84): returns the
last recorded code and copies the last recorded message into the caller's
buffer, truncating safely; a pure accessor that never mutates the state. -/
def supabase_get_last_error (buf : List Char) (cap : Nat) (e : ErrorState) :
    SupabaseError × List Char :=
  (e.code, copyTrunc e.message.toList cap buf)

/-- A sequence of recordError calls applied in order to an error state. -/
def applyRecords (rs : List (SupabaseError × String)) (e : ErrorState) : ErrorState :=
  rs.foldl (fun a p => recordError p.1 p.2 a) e

theorem applyRecords_concat (rs : List (SupabaseError × String))
    (p : SupabaseError × String) (e : ErrorState) :
    applyRecords (rs ++ [p]) e = recordError p.1 p.2 (applyRecords rs e) := by
  simp [applyRecords]

/-- Safe-truncation shape of `copyTrunc` at nonzero capacity: some prefix of
the message of length `k ≤ cap - 1` is written, followed by the terminator,
with the rest of the buffer preserved; the whole message is written whenever
it fits. -/
theorem copyTrunc_spec (msg buf : List Char) (cap : Nat) (hc : cap ≠ 0) :
    ∃ k, k + 1 ≤ cap ∧ k ≤ msg.length ∧
      copyTrunc msg cap buf = msg.take k ++ nullChar :: buf.drop (k + 1) ∧
      (msg.length + 1 ≤ cap → k = msg.length) := by
  by_cases hlen : msg.length + 1 ≤ cap
  · refine ⟨msg.length, hlen, le_refl _, ?_, fun _ => rfl⟩
    have ht : msg.take (cap - 1) = msg := List.take_of_length_le (by omega)
    simp [copyTrunc, hc, ht, List.append_assoc]
  · refine ⟨cap - 1, by omega, by omega, ?_, fun h => absurd h hlen⟩
    have hlen2 : (msg.take (cap - 1)).length = cap - 1 := by
      rw [List.length_take]; omega
    simp [copyTrunc, hc, hlen2, List.append_assoc]

/-- The accessor never writes at or past the declared capacity. -/
theorem copyTrunc_drop (msg buf : List Char) (cap : Nat) :
    (copyTrunc msg cap buf).drop cap = buf.drop cap := by
  by_cases hc : cap = 0
  · simp [copyTrunc, hc]
  · obtain ⟨k, hk, hkm, heq, -⟩ := copyTrunc_spec msg buf cap hc
    have hA : (msg.take k).length = k := by rw [List.length_take]; omega
    rw [heq, List.drop_append_eq_append_drop]
    rw [List.drop_eq_nil_of_le (by omega)]
    obtain ⟨m, hm⟩ : ∃ m, cap - (msg.take k).length = m + 1 := ⟨cap - k - 1, by omega⟩
    rw [hm, List.nil_append, List.drop_succ_cons, List.drop_drop]
    congr 1
    omega

/-- Claim C1: `supabase_get_last_error` returns the most recently recorded
error code and copies the most recently recorded message into the caller's
buffer, truncating safely (bounded by the capacity, buffer past the capacity
untouched, whole message when it fits); it returns Success if and only if no
error has been recorded since creation. -/
theorem C1_get_last_error_contract (rs : List (SupabaseError × String))
    (buf : List Char) (cap : Nat)
    (hwf : ∀ p ∈ rs, p.1 ≠ SupabaseError.SUPABASE_SUCCESS) :
    (supabase_get_last_error buf cap (applyRecords rs errInit)).1 =
      (applyRecords rs errInit).code ∧
    ((supabase_get_last_error buf cap (applyRecords rs errInit)).1 =
      SupabaseError.SUPABASE_SUCCESS ↔ rs = []) ∧
    (∀ h : rs ≠ [],
      (supabase_get_last_error buf cap (applyRecords rs errInit)).1 = (rs.getLast h).1 ∧
      (applyRecords rs errInit).message = (rs.getLast h).2) ∧
    ((supabase_get_last_error buf cap (applyRecords rs errInit)).2).drop cap =
      buf.drop cap ∧
    (∀ hc : cap ≠ 0, ∃ k, k + 1 ≤ cap ∧
      (supabase_get_last_error buf cap (applyRecords rs errInit)).2 =
        (applyRecords rs errInit).message.toList.take k ++
          nullChar :: buf.drop (k + 1) ∧
      ((applyRecords rs errInit).message.toList.length + 1 ≤ cap →
        k = (applyRecords rs errInit).message.toList.length)) := by
  rcases List.eq_nil_or_concat rs with hnil | ⟨L, b, hcon⟩
  · subst hnil
    refine ⟨rfl, by simp [supabase_get_last_error, applyRecords, errInit], ?_, ?_, ?_⟩
    · intro h; exact absurd rfl h
    · exact copyTrunc_drop _ _ _
    · intro hc
      obtain ⟨k, h1, h2, h3, h4⟩ :=
        copyTrunc_spec (applyRecords [] errInit).message.toList buf cap hc
      exact ⟨k, h1, h3, h4⟩
  · rw [List.concat_eq_append] at hcon
    subst hcon
    have hb : b ∈ L ++ [b] := List.mem_append_right _ (List.mem_singleton.mpr rfl)
    have hlast : ∀ h : L ++ [b] ≠ [], (L ++ [b]).getLast h = b := by
      intro h; exact List.getLast_concat ..
    have hcode : (applyRecords (L ++ [b]) errInit).code = b.1 := by
      rw [applyRecords_concat]; rfl
    have hmsg : (applyRecords (L ++ [b]) errInit).message = b.2 := by
      rw [applyRecords_concat]; rfl
    refine ⟨rfl, ?_, ?_, ?_, ?_⟩
    · constructor
      · intro hS
        have hS2 : (applyRecords (L ++ [b]) errInit).code =
            SupabaseError.SUPABASE_SUCCESS := hS
        exact absurd (hcode ▸ hS2) (hwf b hb)
      · intro h
        exact absurd h (by simp)
    · intro h
      rw [hlast h]
      exact ⟨hcode, hmsg⟩
    · exact copyTrunc_drop _ _ _
    · intro hc
      obtain ⟨k, h1, h2, h3, h4⟩ :=
        copyTrunc_spec (applyRecords (L ++ [b]) errInit).message.toList buf cap hc
      exact ⟨k, h1, h3, h4⟩

/-- Claim C1, witness: after recording a NetworkError with message text, the
accessor returns NetworkError at a concrete buffer and capacity. -/
theorem C1_get_last_error_witness :
    (supabase_get_last_error [] 8
      (applyRecords [(SupabaseError.SUPABASE_NETWORK_ERROR, ("down"))] errInit)).1 =
      SupabaseError.SUPABASE_NETWORK_ERROR := by
  have h := C1_get_last_error_contract
    [(SupabaseError.SUPABASE_NETWORK_ERROR, ("down"))] [] 8 (by decide)
  have h2 := (h.2.2.1 (by simp)).1
  simpa using h2

/-- Modelled from the spec (§3 ClientHandle): the configuration captured at
construction time behind the opaque handle of header line 13. -/
structure ClientHandle where
  url : String
  key : String
deriving DecidableEq, Repr

/-- Modelled from the spec: the library-visible state of one error-state
scope: the error store plus a count of remote (network) calls performed,
used to express that a code path makes no network call. -/
structure LibState where
  err : ErrorState
  networkCalls : Nat
deriving DecidableEq, Repr

/-- Fresh library state: no error recorded, no network call performed. -/
def libInit : LibState := ⟨errInit, 0⟩

/-- Modelled from the spec (§4.1 create, header line 30): validates that both
arguments are non-empty; on success captures the configuration in a fresh
handle with no network call and no state change; on failure returns none and
records InvalidInput. -/
def supabase_client_new (url key : String) (s : LibState) :
    Option ClientHandle × LibState :=
  if url = "" ∨ key = "" then
    (none,
      { s with err := recordError .SUPABASE_INVALID_INPUT ("invalid url or key") s.err })
  else
    (some ⟨url, key⟩, s)

/-- The six Operation Façade verbs (§4.2) with their operation-specific
string parameters, matching header lines 34-81. -/
inductive Op where
  | authSignIn (email password : String)
  | authSignUp (email password : String)
  | databaseSelect (table columns : String)
  | databaseInsert (table jsonData : String)
  | storageListBuckets
  | functionsInvoke (functionName jsonPayload : String)
deriving DecidableEq, Repr

/-- Required string parameters of each façade verb (§4.2: non-empty required
strings). -/
def Op.required : Op → List String
  | .authSignIn e p => [e, p]
  | .authSignUp e p => [e, p]
  | .databaseSelect t c => [t, c]
  | .databaseInsert t j => [t, j]
  | .storageListBuckets => []
  | .functionsInvoke n j => [n, j]

/-- Outcome delivered by the external remote collaborator (§6) for one façade
call: a serialized success payload, or a failure with its category code and
diagnostic message. -/
inductive RemoteOutcome where
  | ok (payload : String)
  | fail (code : SupabaseError) (message : String)
deriving DecidableEq, Repr

/-- Modelled from the spec (§4.2 buffer discipline): the code returned when
the serialized success payload would exceed the caller's capacity. The
header's taxonomy has no dedicated truncation value, so the internal-failure
code RuntimeError (§7) is the truncation-class code used here. -/
def truncationError : SupabaseError := .SUPABASE_RUNTIME_ERROR

/-- Write a null-terminated payload at the start of the buffer; only reached
when the payload fits the capacity. -/
def writeCStr (payload : List Char) (buf : List Char) : List Char :=
  payload ++ nullChar :: buf.drop (payload.length + 1)

/-- Result of one façade call: the returned code, the caller buffer after the
call, and the library state after the call. -/
structure FacadeResult where
  code : SupabaseError
  buf : List Char
  state : LibState
deriving DecidableEq, Repr

/-- Modelled from the spec (§4.2): the shared shape of all six façade
operations (header lines 34-81). Local validation first — null handle or an
empty required string fails fast with InvalidInput and no remote call; on
valid input the remote operation runs; a fitting success payload is written
null-terminated and Success returned; an oversized payload yields the
truncation-class error with the buffer untouched; a remote failure returns
its category code; every failure records that call's code and message. -/
def facadeCall (hc : Option ClientHandle) (op : Op) (buf : List Char)
    (cap : Nat) (remote : RemoteOutcome) (s : LibState) : FacadeResult :=
  if hc = none then
    ⟨.SUPABASE_INVALID_INPUT, buf,
      { s with err := recordError .SUPABASE_INVALID_INPUT ("null client handle") s.err }⟩
  else if ("") ∈ op.required then
    ⟨.SUPABASE_INVALID_INPUT, buf,
      { s with err := recordError .SUPABASE_INVALID_INPUT ("empty required argument") s.err }⟩
  else
    match remote with
    | .ok payload =>
        if payload.length + 1 ≤ cap then
          ⟨.SUPABASE_SUCCESS, writeCStr payload.toList buf,
            { s with networkCalls := s.networkCalls + 1 }⟩
        else
          ⟨truncationError, buf,
            { err := recordError truncationError ("result buffer too small") s.err,
              networkCalls := s.networkCalls + 1 }⟩
    | .fail c m =>
        ⟨c, buf, { err := recordError c m s.err, networkCalls := s.networkCalls + 1 }⟩

/-- Header line 34, `supabase_auth_sign_in` as a façade call. -/
def supabase_auth_sign_in (hc : Option ClientHandle) (email password : String)
    (buf : List Char) (cap : Nat) (remote : RemoteOutcome) (s : LibState) :
    FacadeResult :=
  facadeCall hc (.authSignIn email password) buf cap remote s

/-- Header line 42, `supabase_auth_sign_up` as a façade call. -/
def supabase_auth_sign_up (hc : Option ClientHandle) (email password : String)
    (buf : List Char) (cap : Nat) (remote : RemoteOutcome) (s : LibState) :
    FacadeResult :=
  facadeCall hc (.authSignUp email password) buf cap remote s

/-- Header line 51, `supabase_database_select` as a façade call. -/
def supabase_database_select (hc : Option ClientHandle) (table columns : String)
    (buf : List Char) (cap : Nat) (remote : RemoteOutcome) (s : LibState) :
    FacadeResult :=
  facadeCall hc (.databaseSelect table columns) buf cap remote s

/-- Header line 59, `supabase_database_insert` as a façade call. -/
def supabase_database_insert (hc : Option ClientHandle) (table jsonData : String)
    (buf : List Char) (cap : Nat) (remote : RemoteOutcome) (s : LibState) :
    FacadeResult :=
  facadeCall hc (.databaseInsert table jsonData) buf cap remote s

/-- Header line 68, `supabase_storage_list_buckets` as a façade call. -/
def supabase_storage_list_buckets (hc : Option ClientHandle)
    (buf : List Char) (cap : Nat) (remote : RemoteOutcome) (s : LibState) :
    FacadeResult :=
  facadeCall hc .storageListBuckets buf cap remote s

/-- Header line 75, `supabase_functions_invoke` as a façade call. -/
def supabase_functions_invoke (hc : Option ClientHandle)
    (functionName jsonPayload : String) (buf : List Char) (cap : Nat)
    (remote : RemoteOutcome) (s : LibState) : FacadeResult :=
  facadeCall hc (.functionsInvoke functionName jsonPayload) buf cap remote s

/-- Claim C2: after any façade call that returns a non-success code, the
error state is exactly that call's freshly recorded failure — its code equals
the returned code, its sequence number is the incremented one (never a stale
prior record), and a subsequent `supabase_get_last_error` with no intervening
call returns that same code. -/
theorem C2_error_state_reflects_last_failure (hc : Option ClientHandle)
    (op : Op) (buf : List Char) (cap : Nat) (remote : RemoteOutcome)
    (s : LibState)
    (hfail : (facadeCall hc op buf cap remote s).code ≠
      SupabaseError.SUPABASE_SUCCESS) :
    ∃ m, (facadeCall hc op buf cap remote s).state.err =
        recordError (facadeCall hc op buf cap remote s).code m s.err ∧
      (facadeCall hc op buf cap remote s).state.err.code =
        (facadeCall hc op buf cap remote s).code ∧
      (facadeCall hc op buf cap remote s).state.err.seq = s.err.seq + 1 ∧
      ∀ b2 c2,
        (supabase_get_last_error b2 c2 (facadeCall hc op buf cap remote s).state.err).1 =
          (facadeCall hc op buf cap remote s).code := by
  by_cases hn : hc = none
  · refine ⟨("null client handle"), ?_, ?_, ?_, fun b2 c2 => ?_⟩ <;>
      simp [facadeCall, hn, supabase_get_last_error, recordError]
  · by_cases hreq : ("") ∈ op.required
    · refine ⟨("empty required argument"), ?_, ?_, ?_, fun b2 c2 => ?_⟩ <;>
        simp [facadeCall, hn, hreq, supabase_get_last_error, recordError]
    · cases remote with
      | ok payload =>
          by_cases hfit : payload.length + 1 ≤ cap
          · exact absurd (by simp [facadeCall, hn, hreq, hfit]) hfail
          · refine ⟨("result buffer too small"), ?_, ?_, ?_, fun b2 c2 => ?_⟩ <;>
              simp [facadeCall, hn, hreq, hfit, supabase_get_last_error, recordError]
      | fail c m =>
          refine ⟨m, ?_, ?_, ?_, fun b2 c2 => ?_⟩ <;>
            simp [facadeCall, hn, hreq, supabase_get_last_error, recordError]

/-- Claim C2, witness: a façade call on a null handle fails, and the error
state afterwards holds exactly that call's InvalidInput code. -/
theorem C2_error_state_witness :
    (facadeCall none Op.storageListBuckets [] 16 (RemoteOutcome.ok ("x"))
      libInit).state.err.code = SupabaseError.SUPABASE_INVALID_INPUT := by
  have h := C2_error_state_reflects_last_failure none Op.storageListBuckets []
    16 (RemoteOutcome.ok ("x")) libInit (by decide)
  obtain ⟨m, -, h2, -, -⟩ := h
  rw [h2]
  decide

/-- Claim C4: `supabase_client_new` on a valid pair (both strings non-empty)
returns a handle capturing the configuration with no state change (hence no
network call); on an invalid pair (empty url or key) it returns none, records
InvalidInput, makes no network call, and a subsequent
`supabase_get_last_error` reports InvalidInput. -/
theorem C4_client_new_contract (url key : String) (s : LibState) :
    ((url ≠ "" ∧ key ≠ "") →
      (supabase_client_new url key s).1 = some ⟨url, key⟩ ∧
      (supabase_client_new url key s).2 = s) ∧
    ((url = "" ∨ key = "") →
      (supabase_client_new url key s).1 = none ∧
      (supabase_client_new url key s).2.err.code =
        SupabaseError.SUPABASE_INVALID_INPUT ∧
      (supabase_client_new url key s).2.networkCalls = s.networkCalls ∧
      ∀ b c, (supabase_get_last_error b c (supabase_client_new url key s).2.err).1 =
        SupabaseError.SUPABASE_INVALID_INPUT) := by
  constructor
  · rintro ⟨hu, hk⟩
    rw [supabase_client_new, if_neg (by tauto)]
    exact ⟨rfl, rfl⟩
  · intro hor
    rw [supabase_client_new, if_pos hor]
    exact ⟨rfl, rfl, rfl, fun b c => rfl⟩

/-- Claim C4, witness: a concrete valid pair yields a handle, and a concrete
empty url yields none with InvalidInput recorded. -/
theorem C4_client_new_witness :
    (supabase_client_new ("http://localhost:54321") ("anon-key") libInit).1 =
      some ⟨("http://localhost:54321"), ("anon-key")⟩ ∧
    (supabase_client_new ("") ("anon-key") libInit).1 = none ∧
    (supabase_client_new ("") ("anon-key") libInit).2.err.code =
      SupabaseError.SUPABASE_INVALID_INPUT := by
  refine ⟨?_, ?_, ?_⟩
  · exact ((C4_client_new_contract ("http://localhost:54321") ("anon-key")
      libInit).1 (by constructor <;> decide)).1
  · exact ((C4_client_new_contract ("") ("anon-key") libInit).2 (Or.inl rfl)).1
  · exact ((C4_client_new_contract ("") ("anon-key") libInit).2 (Or.inl rfl)).2.1

/-- Claim C5: any façade call whose serialized success payload would exceed
the caller's capacity returns the fixed truncation-class error code (which is
never Success) and leaves the output buffer untouched, uniformly for every
operation. -/
theorem C5_truncation_discipline (ch : ClientHandle) (op : Op)
    (buf : List Char) (cap : Nat) (payload : String) (s : LibState)
    (hreq : ("") ∉ op.required) (hbig : cap < payload.length + 1) :
    (facadeCall (some ch) op buf cap (RemoteOutcome.ok payload) s).code =
      truncationError ∧
    truncationError ≠ SupabaseError.SUPABASE_SUCCESS ∧
    (facadeCall (some ch) op buf cap (RemoteOutcome.ok payload) s).buf = buf := by
  have hno : ¬ ((some ch : Option ClientHandle) = none) := by simp
  rw [facadeCall.eq_def, if_neg hno, if_neg hreq]
  dsimp only
  rw [if_neg (by omega)]
  exact ⟨rfl, by decide, rfl⟩

/-- Claim C5, witness: a five-character payload against capacity three yields
the truncation-class error at a concrete call. -/
theorem C5_truncation_witness :
    (facadeCall (some ⟨("u"), ("k")⟩) Op.storageListBuckets [] 3
      (RemoteOutcome.ok ("hello")) libInit).code = truncationError := by
  have h := C5_truncation_discipline ⟨("u"), ("k")⟩ Op.storageListBuckets [] 3
    ("hello") libInit (by decide) (by decide)
  exact h.1

/-- Claim C6: a façade call with a null handle or an empty required string
parameter returns InvalidInput, leaves the result buffer unwritten, and makes
no remote call. -/
theorem C6_invalid_input_fails_fast (hc : Option ClientHandle) (op : Op)
    (buf : List Char) (cap : Nat) (remote : RemoteOutcome) (s : LibState)
    (hbad : hc = none ∨ ("") ∈ op.required) :
    (facadeCall hc op buf cap remote s).code =
      SupabaseError.SUPABASE_INVALID_INPUT ∧
    (facadeCall hc op buf cap remote s).buf = buf ∧
    (facadeCall hc op buf cap remote s).state.networkCalls = s.networkCalls := by
  by_cases hn : hc = none
  · rw [facadeCall.eq_def, if_pos hn]
    exact ⟨rfl, rfl, rfl⟩
  · rcases hbad with hn2 | he
    · exact absurd hn2 hn
    · rw [facadeCall.eq_def, if_neg hn, if_pos he]
      exact ⟨rfl, rfl, rfl⟩

/-- Claim C6, witness: a sign-in call with an empty email on a live handle
fails fast with InvalidInput and performs no network call. -/
theorem C6_invalid_input_witness :
    (facadeCall (some ⟨("u"), ("k")⟩) (Op.authSignIn ("") ("pw")) [] 8
      (RemoteOutcome.fail SupabaseError.SUPABASE_NETWORK_ERROR ("x"))
      libInit).code = SupabaseError.SUPABASE_INVALID_INPUT ∧
    (facadeCall (some ⟨("u"), ("k")⟩) (Op.authSignIn ("") ("pw")) [] 8
      (RemoteOutcome.fail SupabaseError.SUPABASE_NETWORK_ERROR ("x"))
      libInit).state.networkCalls = 0 := by
  have h := C6_invalid_input_fails_fast (some ⟨("u"), ("k")⟩)
    (Op.authSignIn ("") ("pw")) [] 8
    (RemoteOutcome.fail SupabaseError.SUPABASE_NETWORK_ERROR ("x")) libInit
    (Or.inr (by decide))
  exact ⟨h.1, h.2.2⟩

/-- Modelled from the spec (§4.1 destroy): the allocation picture behind the
opaque pointers — live handles identified by allocation id, and
`transports` holding (owner id, transport id) pairs for the transport
resources each handle owns. -/
structure Resources where
  handles : List Nat
  transports : List (Nat × Nat)
deriving DecidableEq, Repr

/-- Modelled from the spec (§4.1 destroy, header line 31): freeing a null
handle is a no-op; freeing a live handle removes it and every transport
resource it owns. The function is total, so the null case can never fault. -/
def supabase_client_free (hc : Option Nat) (r : Resources) : Resources :=
  match hc with
  | none => r
  | some id =>
      ⟨r.handles.filter (fun x => x ≠ id),
       r.transports.filter (fun p => p.1 ≠ id)⟩

/-- Claim C7: `supabase_client_free` on a null handle is a no-op (and, being
a total function, never faults), and on a live handle it releases the handle
and all transport resources owned by it. -/
theorem C7_client_free_contract (r : Resources) (id : Nat) :
    supabase_client_free none r = r ∧
    id ∉ (supabase_client_free (some id) r).handles ∧
    ∀ t, (id, t) ∉ (supabase_client_free (some id) r).transports := by
  refine ⟨rfl, ?_, fun t => ?_⟩ <;>
    simp [supabase_client_free, List.mem_filter]

/-- One façade call performed by one thread, with everything local to the
call: the issuing thread id, its handle, the verb, the caller buffer and
capacity, and the remote outcome. -/
structure TEvent where
  tid : Nat
  hc : Option ClientHandle
  op : Op
  buf : List Char
  cap : Nat
  remote : RemoteOutcome
deriving DecidableEq, Repr

/-- Effect of one façade call on the error state of its own scope. -/
def stepErr (e : TEvent) (es : ErrorState) : ErrorState :=
  (facadeCall e.hc e.op e.buf e.cap e.remote ⟨es, 0⟩).state.err

/-- Modelled from the spec (§5, §9): the error state read through the
handle-less accessor is scoped per thread (§9 names thread-local scoping as
the reading under which `supabase_get_last_error` can take no handle while §5
keeps cross-thread calls on independent handles safe); an event mutates only
the issuing thread's slot. -/
def execEvent (e : TEvent) (g : Nat → ErrorState) : Nat → ErrorState :=
  fun t => if t = e.tid then stepErr e (g t) else g t

/-- Interleaved execution of a trace of thread events. -/
def execTrace (tr : List TEvent) (g : Nat → ErrorState) : Nat → ErrorState :=
  tr.foldl (fun acc e => execEvent e acc) g

/-- Claim C9: under any interleaving of façade calls from different threads
on independent handles, the error state a given thread observes — and hence
what its `supabase_get_last_error` returns — is exactly the fold of its own
events over its own initial slot: events issued by any other thread never
corrupt or overwrite it. -/
theorem C9_cross_handle_isolation (tr : List TEvent) (g : Nat → ErrorState)
    (t : Nat) :
    execTrace tr g t =
      (tr.filter (fun e => e.tid == t)).foldl (fun es e => stepErr e es) (g t) ∧
    ∀ buf cap,
      (supabase_get_last_error buf cap (execTrace tr g t)).1 =
        ((tr.filter (fun e => e.tid == t)).foldl
          (fun es e => stepErr e es) (g t)).code := by
  have main : ∀ (tr2 : List TEvent) (g2 : Nat → ErrorState),
      execTrace tr2 g2 t =
        (tr2.filter (fun e => e.tid == t)).foldl (fun es e => stepErr e es) (g2 t) := by
    intro tr2
    induction tr2 with
    | nil => intro g2; rfl
    | cons e rest ih =>
        intro g2
        have hstep : execTrace (e :: rest) g2 t = execTrace rest (execEvent e g2) t := rfl
        rw [hstep, ih (execEvent e g2)]
        by_cases het : e.tid = t
        · have hp : (e.tid == t) = true := by simp [het]
          have hev : execEvent e g2 t = stepErr e (g2 t) := by
            have h2 : t = e.tid := het.symm
            simp [execEvent, h2]
          simp [List.filter_cons, hp, hev]
        · have hp : (e.tid == t) = false := by simp [het]
          have hev : execEvent e g2 t = g2 t := by
            have h2 : ¬ (t = e.tid) := fun h => het h.symm
            simp [execEvent, h2]
          simp [List.filter_cons, hp, hev]
  exact ⟨main tr g, fun buf cap => by
    have h1 : (supabase_get_last_error buf cap (execTrace tr g t)).1 =
        (execTrace tr g t).code := rfl
    rw [h1, main tr g]⟩

/-- Results of the nine FFI calls `main` makes, one field per call site; the
implementation behind the header is not in the provided sources, so `main` is
verified against every possible combination of call outcomes. -/
structure MainEnv where
  clientNewResult : Option ClientHandle
  signUpResult : SupabaseError
  signInResult : SupabaseError
  selectResult : SupabaseError
  insertResult : SupabaseError
  listBucketsResult : SupabaseError
  invokeResult : SupabaseError
deriving DecidableEq, Repr

/-- One success-or-failure report line, mirroring the if/else printed around
each façade call in src/examples/c_usage/main.c. -/
def opLine (okMsg failMsg : String) (e : SupabaseError) : String :=
  if e = SupabaseError.SUPABASE_SUCCESS then okMsg else failMsg

/-- Observable outcome of one run of the example program: the process exit
status, whether `supabase_client_free` was called on the client, and the
per-operation report lines. -/
structure MainOutcome where
  exitCode : Nat
  freedClient : Bool
  lines : List String
deriving DecidableEq, Repr

/-- Embedded from src/examples/c_usage/main.c lines 16-152: `main` creates
the client and returns 1 at line 28 when creation failed; otherwise it runs
the six façade operations — each result examined only to pick a report line,
never to stop — then frees the client (line 140) and returns 0 (line 151). -/
def cMain (env : MainEnv) : MainOutcome :=
  match env.clientNewResult with
  | none => ⟨1, false, [("client creation failed")]⟩
  | some _ =>
      ⟨0, true,
        [opLine ("sign up ok") ("sign up failed") env.signUpResult,
         opLine ("sign in ok") ("sign in failed") env.signInResult,
         opLine ("select ok") ("select failed") env.selectResult,
         opLine ("insert ok") ("insert failed") env.insertResult,
         opLine ("buckets ok") ("buckets failed") env.listBucketsResult,
         opLine ("invoke ok") ("invoke failed") env.invokeResult]⟩

/-- Claim C10: the example's `main` exits with status 1 exactly when client
creation returned null; whenever creation succeeds it frees the client and
exits 0, whatever the six façade operations returned. -/
theorem C10_main_exit_status (env : MainEnv) :
    ((cMain env).exitCode = 1 ↔ env.clientNewResult = none) ∧
    ((cMain env).freedClient = true ↔ env.clientNewResult ≠ none) ∧
    (∀ ch, env.clientNewResult = some ch → (cMain env).exitCode = 0) := by
  rcases henv : env.clientNewResult with - | ch
  · refine ⟨?_, ?_, ?_⟩
    · simp [cMain, henv]
    · simp [cMain, henv]
    · intro ch2 hch
      exact absurd hch (by simp)
  · refine ⟨?_, ?_, ?_⟩
    · simp [cMain, henv]
    · simp [cMain, henv]
    · intro ch2 hch
      simp [cMain, henv]

/-- Claim C10, witness: at a run where creation fails the exit status is 1;
at a run where creation succeeds and every façade operation fails the client
is freed and the exit status is 0. -/
theorem C10_main_exit_witness :
    (cMain ⟨none, .SUPABASE_SUCCESS, .SUPABASE_SUCCESS, .SUPABASE_SUCCESS,
      .SUPABASE_SUCCESS, .SUPABASE_SUCCESS, .SUPABASE_SUCCESS⟩).exitCode = 1 ∧
    (cMain ⟨some ⟨("u"), ("k")⟩, .SUPABASE_AUTH_ERROR, .SUPABASE_AUTH_ERROR,
      .SUPABASE_DATABASE_ERROR, .SUPABASE_DATABASE_ERROR,
      .SUPABASE_STORAGE_ERROR, .SUPABASE_FUNCTIONS_ERROR⟩).exitCode = 0 ∧
    (cMain ⟨some ⟨("u"), ("k")⟩, .SUPABASE_AUTH_ERROR, .SUPABASE_AUTH_ERROR,
      .SUPABASE_DATABASE_ERROR, .SUPABASE_DATABASE_ERROR,
      .SUPABASE_STORAGE_ERROR, .SUPABASE_FUNCTIONS_ERROR⟩).freedClient = true := by
  refine ⟨?_, ?_, ?_⟩
  · exact (C10_main_exit_status ⟨none, .SUPABASE_SUCCESS, .SUPABASE_SUCCESS,
      .SUPABASE_SUCCESS, .SUPABASE_SUCCESS, .SUPABASE_SUCCESS,
      .SUPABASE_SUCCESS⟩).1.mpr rfl
  · exact (C10_main_exit_status ⟨some ⟨("u"), ("k")⟩, .SUPABASE_AUTH_ERROR,
      .SUPABASE_AUTH_ERROR, .SUPABASE_DATABASE_ERROR, .SUPABASE_DATABASE_ERROR,
      .SUPABASE_STORAGE_ERROR, .SUPABASE_FUNCTIONS_ERROR⟩).2.2 ⟨("u"), ("k")⟩ rfl
  · exact (C10_main_exit_status ⟨some ⟨("u"), ("k")⟩, .SUPABASE_AUTH_ERROR,
      .SUPABASE_AUTH_ERROR, .SUPABASE_DATABASE_ERROR, .SUPABASE_DATABASE_ERROR,
      .SUPABASE_STORAGE_ERROR, .SUPABASE_FUNCTIONS_ERROR⟩).2.1.mpr (by simp)

end SupabaseSpec
